import Mathlib

/-!
Shallow embedding of `src/OpenAIapiLLMapp.py`: the exception classification
(`retry_exceptions`, lines 16-31), the retrying send loop
(`simple_send_with_retries`, lines 53-85), the model metadata and token
counter (`Model.get_model_info` / `Model.token_count`, lines 87-104) and the
conversation workflow (`LLMWorkflow.send_query` / `clear_context`,
lines 106-150).

Conventions of the embedding:
* The single provider round trip (`send_completion` -> `litellm.completion`)
  is an external effect; it is modelled by a `Transport`, a function from the
  attempt index (0-based: how many calls were already made in this
  `simple_send_with_retries` invocation) to the outcome of that call — either
  a structured response or a raised exception class.
* Python floats `0.125`, `60` and the doubling `retry_delay *= 2` are exact in
  binary floating point, so the delay arithmetic is embedded in `ℚ` with no
  loss: the delay after `n` doublings is exactly `(1/8) * 2 ^ n`.
* The loop is instrumented: besides the returned pair
  `(content, token_usage)` the embedding records the number of transport
  attempts made and the list of delays passed to `time.sleep`, which the
  source performs as side effects.
* Code that raises an uncaught exception is modelled with `Option` /
  an explicit `crash` constructor.
-/

/-- Usage block of a provider response (`response.usage`, captured by
`getattr(response, 'usage', None)` at line 72). -/
structure Usage where
  prompt_tokens : Nat
  completion_tokens : Nat
  total_tokens : Nat
deriving DecidableEq

/-- Message object inside `response.choices[0]`; its `content` attribute may be
`None`, hence `Option String`. -/
structure RespMessage where
  content : Option String
deriving DecidableEq

/-- One element of `response.choices`. The `message` attribute may be absent
(line 67 guards with `hasattr(response.choices[0], 'message')`), hence
`Option`. -/
structure Choice where
  message : Option RespMessage
deriving DecidableEq

/-- Provider response shape as consulted by lines 67-72: the `choices`
attribute may be absent (`hasattr(response, 'choices')`) and, when present, is
a list whose Python truthiness is tested (`response.choices`); the `usage`
attribute may be absent (`getattr(..., None)`). -/
structure Response where
  choices : Option (List Choice)
  usage : Option Usage
deriving DecidableEq

/-- Content extraction of lines 67-70: `content = response.choices[0].message.content`
when `response` has a non-empty `choices` list whose head has a `message`
attribute, and `None` otherwise. -/
def extractContent (r : Response) : Option String :=
  match r.choices with
  | some (c :: _) =>
    match c.message with
    | some m => m.content
    | none => none
  | _ => none

/-- Exception classes that can reach the `try` of `simple_send_with_retries`.
The first ten constructors are exactly the classes listed in
`retry_exceptions()` (lines 20-31); `authenticationError`, `badRequestError`
and `valueError` are representative classes NOT in that list
(`openai.AuthenticationError`, `openai.BadRequestError`, `ValueError`). -/
inductive ExcClass
  | connectError
  | remoteProtocolError
  | readTimeout
  | apiTimeoutError
  | unprocessableEntityError
  | rateLimitError
  | apiConnectionError
  | apiError
  | apiStatusError
  | internalServerError
  | authenticationError
  | badRequestError
  | valueError
deriving DecidableEq, BEq

/-- Tuple returned by `retry_exceptions()` (lines 16-31), in source order:
`httpx.ConnectError`, `httpx.RemoteProtocolError`, `httpx.ReadTimeout`,
`openai.APITimeoutError`, `openai.UnprocessableEntityError`,
`openai.RateLimitError`, `openai.APIConnectionError`, `openai.APIError`,
`openai.APIStatusError`, `openai.InternalServerError`. -/
def retry_exceptions : List ExcClass :=
  [.connectError, .remoteProtocolError, .readTimeout, .apiTimeoutError,
   .unprocessableEntityError, .rateLimitError, .apiConnectionError,
   .apiError, .apiStatusError, .internalServerError]

/-- Modelled from the exception hierarchies of the external `openai`-python
and `httpx` libraries (not part of this repository): each modelled class is
mapped to itself and its superclasses among the modelled classes. In the
openai SDK, `APITimeoutError <: APIConnectionError <: APIError` and
`UnprocessableEntityError, RateLimitError, InternalServerError,
AuthenticationError, BadRequestError <: APIStatusError <: APIError`;
the three `httpx` classes and `ValueError` are unrelated to these. -/
def ancestors : ExcClass → List ExcClass
  | .connectError => [.connectError]
  | .remoteProtocolError => [.remoteProtocolError]
  | .readTimeout => [.readTimeout]
  | .apiTimeoutError => [.apiTimeoutError, .apiConnectionError, .apiError]
  | .unprocessableEntityError => [.unprocessableEntityError, .apiStatusError, .apiError]
  | .rateLimitError => [.rateLimitError, .apiStatusError, .apiError]
  | .apiConnectionError => [.apiConnectionError, .apiError]
  | .apiError => [.apiError]
  | .apiStatusError => [.apiStatusError, .apiError]
  | .internalServerError => [.internalServerError, .apiStatusError, .apiError]
  | .authenticationError => [.authenticationError, .apiStatusError, .apiError]
  | .badRequestError => [.badRequestError, .apiStatusError, .apiError]
  | .valueError => [.valueError]

/-- Semantics of the clause `except retry_exceptions() as err` (line 74):
Python catches an exception iff its class is (a subclass of) one of the
classes in the tuple. -/
def pythonCatches (e : ExcClass) : Bool :=
  (ancestors e).any (fun c => retry_exceptions.contains c)

/-- Outcome of one provider round trip (`send_completion`, which performs
exactly one `litellm.completion` call): a response, or a raised exception of
a given class. -/
inductive TransportOutcome
  | ok (r : Response)
  | raise (e : ExcClass)
deriving DecidableEq

/-- Behaviour of the external transport across attempts: the outcome of the
`i`-th call made by one `simple_send_with_retries` invocation. -/
abbrev Transport := Nat → TransportOutcome

/-- Outcome classified as the first `except` clause (line 74) would catch it:
a raised exception of a class caught by `retry_exceptions()`. -/
def isTransientOutcome : TransportOutcome → Bool
  | .ok _ => false
  | .raise e => pythonCatches e

/-- Instrumented result of `simple_send_with_retries`: the returned pair
`(content, token_usage)` plus the number of transport calls made and the
delays passed to `time.sleep` (line 81), in order. -/
structure RetryTrace where
  content : Option String
  usage : Option Usage
  attempts : Nat
  sleeps : List ℚ
deriving DecidableEq

/-- Body of the `while True` loop of lines 55-85, entered with `n` transient
failures already consumed, so that the current value of the mutable
`retry_delay` variable is exactly `(1/8) * 2 ^ n` (it starts at `0.125` and
is doubled once per transient failure). On a response: extract content and
usage and return (lines 64-73). On an exception caught by
`retry_exceptions()`: double the delay, give up if it exceeds `60`, else
sleep the doubled delay and loop (lines 74-82). On any other exception:
return `(None, None)` (lines 83-85). -/
def sendLoop (t : Transport) (n : Nat) : RetryTrace :=
  match t n with
  | .ok r => ⟨extractContent r, r.usage, 1, []⟩
  | .raise e =>
    if pythonCatches e then
      if hd : (1/8 : ℚ) * 2 ^ (n + 1) > 60 then
        ⟨none, none, 1, []⟩
      else
        let rest := sendLoop t (n + 1)
        ⟨rest.content, rest.usage, rest.attempts + 1,
          (1/8 : ℚ) * 2 ^ (n + 1) :: rest.sleeps⟩
    else
      ⟨none, none, 1, []⟩
termination_by 9 - n
decreasing_by
  have h8 : n + 1 ≤ 8 := by
    by_contra hc
    apply hd
    have hN : (2 : ℕ) ^ 9 ≤ 2 ^ (n + 1) := Nat.pow_le_pow_right (by norm_num) (by omega)
    have hQ : (2 : ℚ) ^ 9 ≤ (2 : ℚ) ^ (n + 1) := by exact_mod_cast hN
    have h512 : (2 : ℚ) ^ 9 = 512 := by norm_num
    linarith [hQ, h512]
  omega

/-- Entry point of lines 53-54: `retry_delay` starts at `0.125 = (1/8) * 2^0`,
i.e. the loop starts with zero consumed failures. -/
def simple_send_with_retries (t : Transport) : RetryTrace :=
  sendLoop t 0

/-- Dictionary returned by `Model.get_model_info` (lines 94-96): it ignores
its `model_name` argument and always returns `{"max_input_tokens": 4096}`. -/
structure ModelInfo where
  max_input_tokens : Nat
deriving DecidableEq

/-- Embedding of `Model.get_model_info(self, model_name)` (lines 94-96). The
argument is the raw constructor argument, which may be Python `None`. -/
def get_model_info (_model_name : Option String) : ModelInfo :=
  ⟨4096⟩

/-- State of a `Model` instance (lines 87-92): `self.name` and `self.info`. -/
structure Model where
  name : String
  info : ModelInfo
deriving DecidableEq

/-- Embedding of `Model.__init__` (lines 90-92): `self.name = model_name or
self.DEFAULT_MODEL_NAME` — Python `or` falls back on `None` and on the empty
string — and `self.info = self.get_model_info(model_name)`. -/
def mkModel (model_name : Option String) : Model :=
  { name :=
      match model_name with
      | none => "gpt-4o"
      | some s => if s = "" then "gpt-4o" else s,
    info := get_model_info model_name }

/-- Role tag of a conversation message dictionary (`"user"` /
`"assistant"`). -/
inductive Role
  | user
  | assistant
deriving DecidableEq

/-- Conversation message dictionary `{"role": ..., "content": ...}` as
appended by `send_query` (lines 113 and 132). -/
structure Msg where
  role : Role
  content : String
deriving DecidableEq

/-- External tokenizer `litellm.encode(model=..., text=...)` (line 104),
modelled as a function from model name and text to the token list; only its
length is consumed. -/
abbrev Encoder := String → String → List Nat

/-- Argument shapes accepted by `Model.token_count` (lines 98-104): a single
string, or a list of message dictionaries. -/
inductive TokenCountInput
  | text (s : String)
  | turns (msgs : List Msg)

/-- Embedding of `Model.token_count` (lines 98-104). A single string is
wrapped into a one-element list; a list of dictionaries is mapped to its
`content` fields; the per-text `litellm.encode` lengths are summed. On the
EMPTY list the guard `isinstance(messages[0], dict)` (line 101) evaluates
`messages[0]` and raises `IndexError`, modelled as `none`. -/
def token_count (enc : Encoder) (m : Model) : TokenCountInput → Option Nat
  | .text s => some (enc m.name s).length
  | .turns [] => none
  | .turns msgs => some ((msgs.map (fun msg => (enc m.name msg.content).length)).sum)

/-- State of an `LLMWorkflow` instance (lines 106-109): the model and the
conversation history `self.messages`. -/
structure Workflow where
  model : Model
  messages : List Msg
deriving DecidableEq

/-- Embedding of `LLMWorkflow.__init__` (lines 107-109): the history starts
empty. -/
def mkWorkflow (model_name : Option String) : Workflow :=
  { model := mkModel model_name, messages := [] }

/-- Embedding of `LLMWorkflow.clear_context` (lines 148-150). -/
def clear_context (w : Workflow) : Workflow :=
  { w with messages := [] }

/-- Instrumented outcome of `LLMWorkflow.send_query`: the final value of
`self.messages`, the returned pair, and how many times `clear_context` and
`simple_send_with_retries` were called; `crash` marks an uncaught
exception escaping `send_query`. -/
inductive SQResult
  | crash
  | done (messages : List Msg) (content : Option String) (usage : Option Usage)
      (clear_calls : Nat) (send_calls : Nat)
deriving DecidableEq

/-- Embedding of `LLMWorkflow.send_query` (lines 111-134). The user turn is
appended first (line 113); the token count of the whole history is compared
with `self.model.info.get("max_input_tokens", 4096)` (lines 116-117); on
overflow the context is cleared and `(None, None)` returned (lines 118-121);
otherwise `simple_send_with_retries` is called once (line 124) and either
`(None, None)` is returned (lines 127-129) or the content is appended as an
assistant turn and `(content, token_usage)` returned (lines 131-134). -/
def send_query (enc : Encoder) (t : Transport) (w : Workflow) (user_query : String) : SQResult :=
  match token_count enc w.model (.turns (w.messages ++ [⟨Role.user, user_query⟩])) with
  | none => .crash
  | some tc =>
    if tc > w.model.info.max_input_tokens then
      .done [] none none 1 0
    else
      match (simple_send_with_retries t).content with
      | none => .done (w.messages ++ [⟨Role.user, user_query⟩]) none none 0 1
      | some c =>
        .done ((w.messages ++ [⟨Role.user, user_query⟩]) ++ [⟨Role.assistant, c⟩])
          (some c) (simple_send_with_retries t).usage 0 1

/-- Well-shaped provider response used as a concrete stub: content `"hello"`,
usage `{prompt_tokens: 3, completion_tokens: 1, total_tokens: 4}`. -/
def respHello : Response :=
  ⟨some [⟨some ⟨some "hello"⟩⟩], some ⟨3, 1, 4⟩⟩

/-- Provider response whose `choices` list is empty (unexpected shape). -/
def respNoChoices : Response :=
  ⟨some [], some ⟨3, 1, 4⟩⟩

/-- Transport stub that succeeds on every attempt. -/
def tOk : Transport := fun _ => .ok respHello

/-- Transport stub that succeeds on every attempt with an empty `choices`
list. -/
def tNoChoice : Transport := fun _ => .ok respNoChoices

/-- Transport stub that raises `httpx.ReadTimeout` on the first attempt and
succeeds on the second. -/
def tOneFail : Transport := fun n => if n = 0 then .raise .readTimeout else .ok respHello

/-- Transport stub that raises `openai.UnprocessableEntityError` (HTTP 422,
malformed request) on the first attempt and succeeds on the second. -/
def tUnproc : Transport :=
  fun n => if n = 0 then .raise .unprocessableEntityError else .ok respHello

/-- Transport stub that raises `openai.AuthenticationError` (HTTP 401) on the
first attempt and succeeds on the second. -/
def tAuth : Transport :=
  fun n => if n = 0 then .raise .authenticationError else .ok respHello

/-- Transport stub that raises `openai.RateLimitError` on every attempt. -/
def tAllFail : Transport := fun _ => .raise .rateLimitError

/-- Transport stub that raises `ValueError` (not caught by
`retry_exceptions()`) on every attempt. -/
def tFatal : Transport := fun _ => .raise .valueError

/-- Tokenizer stub under which every text encodes to one token. -/
def encOne : Encoder := fun _ _ => [0]

/-- Tokenizer stub under which every text encodes to 4097 tokens. -/
def encBig : Encoder := fun _ _ => List.replicate 4097 0

/-- Freshly constructed workflow (default model name, empty history). -/
def w0 : Workflow := mkWorkflow none

theorem sendLoop_ok {t : Transport} {n : Nat} {r : Response} (h : t n = .ok r) :
    sendLoop t n = ⟨extractContent r, r.usage, 1, []⟩ := by
  rw [sendLoop.eq_def, h]

theorem sendLoop_fatal {t : Transport} {n : Nat} {e : ExcClass}
    (h : t n = .raise e) (hc : pythonCatches e = false) :
    sendLoop t n = ⟨none, none, 1, []⟩ := by
  rw [sendLoop.eq_def, h]
  simp [hc]

theorem sendLoop_giveup {t : Transport} {n : Nat} {e : ExcClass}
    (h : t n = .raise e) (hc : pythonCatches e = true)
    (hd : (1/8 : ℚ) * 2 ^ (n + 1) > 60) :
    sendLoop t n = ⟨none, none, 1, []⟩ := by
  rw [sendLoop.eq_def, h]
  simp only [hc, if_true, dif_pos hd]

theorem sendLoop_transient {t : Transport} {n : Nat} {e : ExcClass}
    (h : t n = .raise e) (hc : pythonCatches e = true)
    (hd : ¬((1/8 : ℚ) * 2 ^ (n + 1) > 60)) :
    sendLoop t n = ⟨(sendLoop t (n + 1)).content, (sendLoop t (n + 1)).usage,
      (sendLoop t (n + 1)).attempts + 1,
      (1/8 : ℚ) * 2 ^ (n + 1) :: (sendLoop t (n + 1)).sleeps⟩ := by
  rw [sendLoop.eq_def, h]
  simp only [hc, if_true, dif_neg hd]

theorem delay_within (n : Nat) (h : n + 1 ≤ 8) : ¬((1/8 : ℚ) * 2 ^ (n + 1) > 60) := by
  have hN : (2 : ℕ) ^ (n + 1) ≤ 2 ^ 8 := Nat.pow_le_pow_right (by norm_num) h
  have hQ : (2 : ℚ) ^ (n + 1) ≤ (2 : ℚ) ^ 8 := by exact_mod_cast hN
  have h256 : (2 : ℚ) ^ 8 = 256 := by norm_num
  push_neg
  linarith [hQ, h256]

theorem sendLoop_run (t : Transport) (r : Response) :
    ∀ (j n : Nat), n + j ≤ 8 →
      (∀ i, n ≤ i → i < n + j → isTransientOutcome (t i) = true) →
      t (n + j) = .ok r →
      sendLoop t n = ⟨extractContent r, r.usage, j + 1,
        (List.range' n j).map (fun i => (1/8 : ℚ) * 2 ^ (i + 1))⟩ := by
  intro j
  induction j with
  | zero =>
    intro n _ _ hok
    rw [sendLoop_ok (show t n = .ok r by simpa using hok)]
    simp
  | succ j ih =>
    intro n hle htrans hok
    have htn : isTransientOutcome (t n) = true := htrans n (Nat.le_refl n) (by omega)
    cases ht : t n with
    | ok r2 =>
      rw [ht] at htn
      simp [isTransientOutcome] at htn
    | raise e =>
      rw [ht] at htn
      simp only [isTransientOutcome] at htn
      have hd := delay_within n (by omega)
      rw [sendLoop_transient ht htn hd]
      have hrec := ih (n + 1) (by omega)
        (fun i h1 h2 => htrans i (by omega) (by omega))
        (by
          have he : n + 1 + j = n + (j + 1) := by omega
          rw [he]
          exact hok)
      rw [hrec]
      simp [List.range'_succ]

theorem sendLoop_allfail (t : Transport) (hall : ∀ i, isTransientOutcome (t i) = true) :
    ∀ (j n : Nat), n + j = 8 →
      sendLoop t n = ⟨none, none, j + 1,
        (List.range' n j).map (fun i => (1/8 : ℚ) * 2 ^ (i + 1))⟩ := by
  intro j
  induction j with
  | zero =>
    intro n hn
    have h8 : n = 8 := by omega
    subst h8
    have htn := hall 8
    cases ht : t 8 with
    | ok r2 =>
      rw [ht] at htn
      simp [isTransientOutcome] at htn
    | raise e =>
      rw [ht] at htn
      simp only [isTransientOutcome] at htn
      rw [sendLoop_giveup ht htn (by norm_num)]
      simp
  | succ j ih =>
    intro n hn
    have htn := hall n
    cases ht : t n with
    | ok r2 =>
      rw [ht] at htn
      simp [isTransientOutcome] at htn
    | raise e =>
      rw [ht] at htn
      simp only [isTransientOutcome] at htn
      have hd := delay_within n (by omega)
      rw [sendLoop_transient ht htn hd, ih (n + 1) (by omega)]
      simp [List.range'_succ]

theorem sendLoop_attempts_le (t : Transport) :
    ∀ (j n : Nat), n + j = 8 → (sendLoop t n).attempts ≤ j + 1 := by
  intro j
  induction j with
  | zero =>
    intro n hn
    have h8 : n = 8 := by omega
    subst h8
    cases ht : t 8 with
    | ok r =>
      rw [sendLoop_ok ht]
    | raise e =>
      cases hc : pythonCatches e with
      | false => rw [sendLoop_fatal ht hc]
      | true => rw [sendLoop_giveup ht hc (by norm_num)]
  | succ j ih =>
    intro n hn
    cases ht : t n with
    | ok r =>
      rw [sendLoop_ok ht]
      show 1 ≤ j + 1 + 1
      omega
    | raise e =>
      cases hc : pythonCatches e with
      | false =>
        rw [sendLoop_fatal ht hc]
        show 1 ≤ j + 1 + 1
        omega
      | true =>
        by_cases hd : (1/8 : ℚ) * 2 ^ (n + 1) > 60
        · rw [sendLoop_giveup ht hc hd]
          show 1 ≤ j + 1 + 1
          omega
        · rw [sendLoop_transient ht hc hd]
          have h2 := ih (n + 1) (by omega)
          show (sendLoop t (n + 1)).attempts + 1 ≤ j + 1 + 1
          omega

theorem tOneFail_eval :
    simple_send_with_retries tOneFail = ⟨some "hello", some ⟨3, 1, 4⟩, 2, [(1/4 : ℚ)]⟩ := by
  unfold simple_send_with_retries
  rw [sendLoop_transient (show tOneFail 0 = .raise .readTimeout from rfl) rfl (by norm_num),
    sendLoop_ok (show tOneFail 1 = .ok respHello from rfl)]
  norm_num [respHello, extractContent]

theorem tUnproc_eval :
    simple_send_with_retries tUnproc = ⟨some "hello", some ⟨3, 1, 4⟩, 2, [(1/4 : ℚ)]⟩ := by
  unfold simple_send_with_retries
  rw [sendLoop_transient (show tUnproc 0 = .raise .unprocessableEntityError from rfl) rfl
      (by norm_num),
    sendLoop_ok (show tUnproc 1 = .ok respHello from rfl)]
  norm_num [respHello, extractContent]

theorem tAuth_eval :
    simple_send_with_retries tAuth = ⟨some "hello", some ⟨3, 1, 4⟩, 2, [(1/4 : ℚ)]⟩ := by
  unfold simple_send_with_retries
  rw [sendLoop_transient (show tAuth 0 = .raise .authenticationError from rfl) rfl (by norm_num),
    sendLoop_ok (show tAuth 1 = .ok respHello from rfl)]
  norm_num [respHello, extractContent]

/-- C1 counterexample: with a transport that fails transiently exactly once
and then succeeds, `simple_send_with_retries` performs 2 attempts but the one
sleep between them lasts `0.25` time-units, not the `0.125` the claim's delay
sequence `0.125, 0.25, 0.5, …` prescribes for the first retry: the code
doubles `retry_delay` BEFORE sleeping. -/
theorem retry_delays_start_quarter_cex :
    (simple_send_with_retries tOneFail).attempts = 2 ∧
    (simple_send_with_retries tOneFail).sleeps = [(1/4 : ℚ)] ∧
    ¬((simple_send_with_retries tOneFail).sleeps = [(1/8 : ℚ)]) := by
  rw [tOneFail_eval]
  norm_num

/-- C1 (amended): if the transport raises a transient error on exactly the
first `k` calls and succeeds on call `k + 1`, then `simple_send_with_retries`
performs exactly `k + 1` attempts and sleeps between consecutive attempts the
doubled delays `0.25, 0.5, …, 0.125 * 2 ^ k` time-units — the delay is
doubled before each sleep — provided every such delay is ≤ 60, which holds
exactly when `k ≤ 8`; the returned pair is the extracted content and usage of
the successful response. -/
theorem retry_policy_k_failures (t : Transport) (k : Nat) (r : Response)
    (hk : k ≤ 8)
    (hfail : ∀ i, i < k → isTransientOutcome (t i) = true)
    (hok : t k = .ok r) :
    simple_send_with_retries t =
      ⟨extractContent r, r.usage, k + 1,
        (List.range k).map (fun i => (1/8 : ℚ) * 2 ^ (i + 1))⟩ := by
  have h := sendLoop_run t r k 0 (by omega) (fun i h1 h2 => hfail i (by omega))
    (by simpa using hok)
  simpa [simple_send_with_retries, List.range_eq_range'] using h

/-- Witness for C1's theorem at `k = 1`: one transient failure, then success;
2 attempts and a single sleep of `0.25` time-units. -/
theorem retry_policy_k_failures_witness :
    simple_send_with_retries tOneFail =
      ⟨some "hello", some ⟨3, 1, 4⟩, 2, [(1/4 : ℚ)]⟩ := by
  have h := retry_policy_k_failures tOneFail 1 respHello (by omega) (by decide) rfl
  rw [h]
  norm_num [respHello, extractContent, List.range_succ]

/-- C3: for every transport behaviour `simple_send_with_retries` makes at
most 9 attempts (it is a total function of the embedding, so no exception
propagates), and when every attempt raises a transient error it returns
`(None, None)` after exactly 9 attempts, having slept the doubled delays
`0.25, …, 32`; the tenth delay would be `64 > 60`, so the loop stops. -/
theorem backoff_always_terminates (t : Transport) :
    (simple_send_with_retries t).attempts ≤ 9 ∧
    ((∀ i, isTransientOutcome (t i) = true) →
      simple_send_with_retries t =
        ⟨none, none, 9, [(1/4 : ℚ), 1/2, 1, 2, 4, 8, 16, 32]⟩) := by
  constructor
  · have h := sendLoop_attempts_le t 8 0 (by omega)
    simpa [simple_send_with_retries] using h
  · intro hall
    have h := sendLoop_allfail t hall 8 0 (by omega)
    rw [show simple_send_with_retries t = sendLoop t 0 from rfl, h]
    norm_num [List.range']

/-- Witness for C3's theorem: a transport that raises `openai.RateLimitError`
on every attempt. -/
theorem backoff_always_terminates_witness :
    (simple_send_with_retries tAllFail).attempts ≤ 9 ∧
    simple_send_with_retries tAllFail =
      ⟨none, none, 9, [(1/4 : ℚ), 1/2, 1, 2, 4, 8, 16, 32]⟩ :=
  ⟨(backoff_always_terminates tAllFail).1,
   (backoff_always_terminates tAllFail).2 (fun _ => rfl)⟩

/-- C4 counterexample: `openai.UnprocessableEntityError` (HTTP 422, a
malformed request — neither a connection error, timeout, rate limit nor a
5xx error) is listed in `retry_exceptions()` and is therefore retried: a
transport raising it on the first attempt is called a second time and the
call succeeds, instead of yielding `(None, None)` after one attempt. The
same happens for `openai.AuthenticationError`, an instance of the listed
base classes `openai.APIStatusError` and `openai.APIError`. -/
theorem fatal_classification_cex :
    (simple_send_with_retries tUnproc).attempts = 2 ∧
    (simple_send_with_retries tUnproc).content = some "hello" ∧
    (simple_send_with_retries tAuth).attempts = 2 ∧
    ¬(simple_send_with_retries tUnproc = ⟨none, none, 1, []⟩) := by
  rw [tUnproc_eval, tAuth_eval]
  norm_num

/-- C4 (amended): an error raised on the first attempt is retried exactly
when its class is caught by the `retry_exceptions()` tuple — which, besides
connection errors, timeouts, rate limiting and 5xx errors, also catches
`UnprocessableEntityError` (malformed request) and, through the listed base
classes `APIError`/`APIStatusError`, every other `openai` provider error,
authentication failures included; only errors outside those classes (e.g. a
`ValueError`) are fatal and yield `(None, None)` on the first attempt. -/
theorem retried_iff_caught (t : Transport) (e : ExcClass) (r : Response)
    (h0 : t 0 = .raise e) (h1 : t 1 = .ok r) :
    simple_send_with_retries t =
      (if pythonCatches e = true then
        ⟨extractContent r, r.usage, 2, [(1/4 : ℚ)]⟩
      else ⟨none, none, 1, []⟩) := by
  by_cases hc : pythonCatches e = true
  · rw [if_pos hc, show simple_send_with_retries t = sendLoop t 0 from rfl,
      sendLoop_transient h0 hc (by norm_num), sendLoop_ok h1]
    norm_num
  · rw [if_neg hc, show simple_send_with_retries t = sendLoop t 0 from rfl]
    exact sendLoop_fatal h0 (by simpa using hc)

/-- Witness for C4's theorem: `UnprocessableEntityError` on the first
attempt, success on the second. -/
theorem retried_iff_caught_witness :
    simple_send_with_retries tUnproc =
      (if pythonCatches ExcClass.unprocessableEntityError = true then
        ⟨extractContent respHello, respHello.usage, 2, [(1/4 : ℚ)]⟩
      else ⟨none, none, 1, []⟩) :=
  retried_iff_caught tUnproc ExcClass.unprocessableEntityError respHello rfl rfl

/-- C5: if the first transport attempt raises an exception whose class is not
caught by `retry_exceptions()`, `simple_send_with_retries` returns
`(None, None)` after exactly one attempt, with no sleep and no further
attempt. -/
theorem fatal_first_attempt_no_retry (t : Transport) (e : ExcClass)
    (hc : pythonCatches e = false) (h0 : t 0 = .raise e) :
    simple_send_with_retries t = ⟨none, none, 1, []⟩ := by
  rw [show simple_send_with_retries t = sendLoop t 0 from rfl]
  exact sendLoop_fatal h0 hc

/-- Witness for C5's theorem: a transport raising `ValueError` on every
attempt. -/
theorem fatal_first_attempt_no_retry_witness :
    pythonCatches ExcClass.valueError = false ∧
    simple_send_with_retries tFatal = ⟨none, none, 1, []⟩ :=
  ⟨rfl, fatal_first_attempt_no_retry tFatal ExcClass.valueError rfl rfl⟩

theorem send_query_eval (enc : Encoder) (t : Transport) (w : Workflow) (q : String)
    (n : Nat)
    (hcount : token_count enc w.model (.turns (w.messages ++ [⟨Role.user, q⟩])) = some n) :
    send_query enc t w q =
      (if n > w.model.info.max_input_tokens then SQResult.done [] none none 1 0
      else
        match (simple_send_with_retries t).content with
        | none => SQResult.done (w.messages ++ [⟨Role.user, q⟩]) none none 0 1
        | some c =>
          SQResult.done ((w.messages ++ [⟨Role.user, q⟩]) ++ [⟨Role.assistant, c⟩])
            (some c) (simple_send_with_retries t).usage 0 1) := by
  rw [send_query, hcount]

/-- C2: when the token count of the transcript with the user turn appended
exceeds the model's `max_input_tokens`, `send_query` clears the context
exactly once, makes no retry/transport call, returns `(None, None)` and
leaves the transcript empty — the appended user turn is discarded along with
every earlier turn. -/
theorem over_budget_clears (enc : Encoder) (t : Transport) (w : Workflow) (q : String)
    (n : Nat)
    (hcount : token_count enc w.model (.turns (w.messages ++ [⟨Role.user, q⟩])) = some n)
    (hover : n > w.model.info.max_input_tokens) :
    send_query enc t w q = .done [] none none 1 0 := by
  rw [send_query_eval enc t w q n hcount, if_pos hover]

/-- Witness for C2's theorem: a tokenizer stub under which the single user
turn already counts 4097 tokens, over the constant budget 4096. -/
theorem over_budget_clears_witness :
    send_query encBig tOk w0 "hi" = .done [] none none 1 0 := by
  have henc : ∀ a b, encBig a b = List.replicate 4097 0 := fun _ _ => rfl
  have hcount : token_count encBig w0.model
      (.turns (w0.messages ++ [⟨Role.user, "hi"⟩])) = some 4097 := by
    show token_count encBig w0.model (.turns [⟨Role.user, "hi"⟩]) = some 4097
    simp only [token_count, List.map_cons, List.map_nil, List.sum_cons, List.sum_nil,
      henc, List.length_replicate, Nat.add_zero]
  exact over_budget_clears encBig tOk w0 "hi" 4097 hcount (by decide)

/-- C6: when the token count of the transcript with the user turn appended is
within the model's `max_input_tokens`, `send_query` calls
`simple_send_with_retries` exactly once and never calls `clear_context`. -/
theorem under_budget_sends_once (enc : Encoder) (t : Transport) (w : Workflow) (q : String)
    (n : Nat)
    (hcount : token_count enc w.model (.turns (w.messages ++ [⟨Role.user, q⟩])) = some n)
    (hle : n ≤ w.model.info.max_input_tokens) :
    ∃ ms c u, send_query enc t w q = .done ms c u 0 1 := by
  rw [send_query_eval enc t w q n hcount, if_neg (by omega)]
  cases hres : (simple_send_with_retries t).content with
  | none => exact ⟨_, _, _, rfl⟩
  | some c => exact ⟨_, _, _, rfl⟩

/-- Witness for C6's theorem: a one-token tokenizer stub and an
always-succeeding transport. -/
theorem under_budget_sends_once_witness :
    ∃ ms c u, send_query encOne tOk w0 "hi" = .done ms c u 0 1 := by
  have hcount : token_count encOne w0.model
      (.turns (w0.messages ++ [⟨Role.user, "hi"⟩])) = some 1 := rfl
  exact under_budget_sends_once encOne tOk w0 "hi" 1 hcount (by decide)

/-- C7: when the first transport call returns a response with no usable
`choices[0].message` shape, `simple_send_with_retries` returns on that first
round trip with content `None`, the captured usage, no retry and no sleep;
`send_query` (within budget) then returns `(None, None)` and leaves the
transcript with the appended user turn and no assistant turn, all earlier
turns unchanged. -/
theorem missing_shape_no_retry (enc : Encoder) (t : Transport) (w : Workflow) (q : String)
    (n : Nat) (r : Response)
    (hcount : token_count enc w.model (.turns (w.messages ++ [⟨Role.user, q⟩])) = some n)
    (hle : n ≤ w.model.info.max_input_tokens)
    (h0 : t 0 = .ok r) (hshape : extractContent r = none) :
    simple_send_with_retries t = ⟨none, r.usage, 1, []⟩ ∧
    send_query enc t w q = .done (w.messages ++ [⟨Role.user, q⟩]) none none 0 1 := by
  have hret : simple_send_with_retries t = ⟨none, r.usage, 1, []⟩ := by
    rw [show simple_send_with_retries t = sendLoop t 0 from rfl, sendLoop_ok h0, hshape]
  refine ⟨hret, ?_⟩
  rw [send_query_eval enc t w q n hcount, if_neg (by omega), hret]

/-- Witness for C7's theorem: a transport whose response has an empty
`choices` list. -/
theorem missing_shape_no_retry_witness :
    simple_send_with_retries tNoChoice = ⟨none, some ⟨3, 1, 4⟩, 1, []⟩ ∧
    send_query encOne tNoChoice w0 "hi" = .done [⟨Role.user, "hi"⟩] none none 0 1 := by
  have hcount : token_count encOne w0.model
      (.turns (w0.messages ++ [⟨Role.user, "hi"⟩])) = some 1 := rfl
  have h := missing_shape_no_retry encOne tNoChoice w0 "hi" 1 respNoChoices hcount
    (by decide) rfl rfl
  simpa [w0, mkWorkflow, respNoChoices] using h

/-- C9: whenever `simple_send_with_retries` returns non-`None` content (and
the budget check passed), `send_query` appends that content as an assistant
turn after the already-appended user turn and returns `(content, usage)`: the
transcript grows by exactly the two turns `user, assistant`, in that order,
with all prior turns unchanged. -/
theorem success_appends_assistant (enc : Encoder) (t : Transport) (w : Workflow)
    (q : String) (n : Nat) (c : String)
    (hcount : token_count enc w.model (.turns (w.messages ++ [⟨Role.user, q⟩])) = some n)
    (hle : n ≤ w.model.info.max_input_tokens)
    (hc : (simple_send_with_retries t).content = some c) :
    send_query enc t w q =
      .done (w.messages ++ [⟨Role.user, q⟩, ⟨Role.assistant, c⟩]) (some c)
        (simple_send_with_retries t).usage 0 1 := by
  rw [send_query_eval enc t w q n hcount, if_neg (by omega), hc]
  simp

/-- Witness for C9's theorem: an always-succeeding transport; the transcript
becomes `[user "hi", assistant "hello"]` and the usage block is returned. -/
theorem success_appends_assistant_witness :
    send_query encOne tOk w0 "hi" =
      .done [⟨Role.user, "hi"⟩, ⟨Role.assistant, "hello"⟩] (some "hello")
        (some ⟨3, 1, 4⟩) 0 1 := by
  have hcount : token_count encOne w0.model
      (.turns (w0.messages ++ [⟨Role.user, "hi"⟩])) = some 1 := rfl
  have hok : simple_send_with_retries tOk = ⟨some "hello", some ⟨3, 1, 4⟩, 1, []⟩ := by
    rw [show simple_send_with_retries tOk = sendLoop tOk 0 from rfl,
      sendLoop_ok (show tOk 0 = .ok respHello from rfl)]
    rfl
  have h := success_appends_assistant encOne tOk w0 "hi" 1 "hello" hcount (by decide)
    (by rw [hok])
  rw [h, hok]
  simp [w0, mkWorkflow]

/-- C8 counterexample: on the EMPTY list of turns, `Model.token_count` does
not return an integer at all: the guard `isinstance(messages[0], dict)`
evaluates `messages[0]` on an empty list and raises `IndexError`, modelled as
`none`. -/
theorem token_count_empty_cex :
    token_count encOne (mkModel none) (.turns []) = none := rfl

/-- C8 (amended): for every model and tokenizer, `Model.token_count` returns
a non-negative integer on every single text — counted as the token count of
that one text — and on every NON-empty sequence of turns — counted as the sum
of the per-content token counts; it is a pure function of the embedding,
hence deterministic and non-mutating. On the empty sequence it raises
`IndexError` instead of returning. -/
theorem token_count_text_and_nonempty (enc : Encoder) (m : Model) :
    (∀ s, token_count enc m (.text s) = some (enc m.name s).length) ∧
    (∀ msg msgs, token_count enc m (.turns (msg :: msgs)) =
      some (((msg :: msgs).map (fun x => (enc m.name x.content).length)).sum)) :=
  ⟨fun _ => rfl, fun _ _ => rfl⟩

/-- C10: `Model.get_model_info` ignores its model-name argument and always
returns `{"max_input_tokens": 4096}`; hence the budget `send_query` compares
against is the constant 4096 for every model the workflow was constructed
with. -/
theorem model_info_constant :
    (∀ model_name, get_model_info model_name = ⟨4096⟩) ∧
    (∀ model_name, (mkModel model_name).info.max_input_tokens = 4096) ∧
    (∀ model_name, (mkWorkflow model_name).model.info.max_input_tokens = 4096) :=
  ⟨fun _ => rfl, fun _ => rfl, fun _ => rfl⟩
